import Mathlib

/-!
Shallow embedding of `src/main.py` (Pulumi Snowflake template): factory
functions that build declarative resource descriptors for Snowflake users,
roles, warehouses, databases, schemas, tables and privilege grants.

Pulumi `Input[str]` / `Output[str]` values are modelled as resolved
`String`s; `pulumi.Output.concat` is string concatenation. Python
`Optional[str]` is `Option String`; the Python expression `x or y` on an
optional string (truthy test: `None` and `""` are falsy) is `pyOrStr`.
A Python function that can fall through without a `return` yields
`Option` (`none` is Python's implicit `None`).
-/

namespace PulumiSnowflake

/-- Python `x or y` for `x : Optional[str]`: `None` and the empty string are
falsy, so they select the default `y`; any other string is returned as is. -/
def pyOrStr : Option String → String → String
  | none, d => d
  | some s, d => if s = "" then d else s

/-- `environment = config.get("environment") or "dev"` (src/main.py line 12). -/
def environmentOf (cfg : Option String) : String :=
  pyOrStr cfg "dev"

/-- Descriptor `snowflake.User` with the fields set by `create_user`. -/
structure User where
  resourceName : String
  name : String
  login_name : String
  email : String
  default_role : Option String
  default_warehouse : Option String
  default_namespace : Option String
  must_change_password : Bool
  disabled : Bool
  comment : String
deriving Repr, DecidableEq

/-- Descriptor `snowflake.Role` with the fields set by `create_role`. -/
structure Role where
  resourceName : String
  name : String
  comment : String
deriving Repr, DecidableEq

/-- Descriptor `snowflake.RoleGrants` with the fields set by `grant_role_to_user`. -/
structure RoleGrants where
  resourceName : String
  role_name : String
  users : List String
deriving Repr, DecidableEq

/-- Descriptor `snowflake.Warehouse` with the fields set by `create_warehouse`. -/
structure Warehouse where
  resourceName : String
  name : String
  warehouse_size : String
  auto_suspend : Int
  auto_resume : Bool
  initially_suspended : Bool
  max_cluster_count : Int
  min_cluster_count : Int
  comment : String
deriving Repr, DecidableEq

/-- Descriptor `snowflake.Database` with the fields set by `create_database`. -/
structure Database where
  resourceName : String
  name : String
  comment : String
  data_retention_time_in_days : Int
deriving Repr, DecidableEq

/-- Descriptor `snowflake.Schema` with the fields set by `create_schema`. -/
structure Schema where
  resourceName : String
  database : String
  name : String
  comment : String
  data_retention_days : Option Int
  is_managed : Bool
deriving Repr, DecidableEq

/-- `snowflake.TableColumnArgs` with the fields set by `create_table`. -/
structure TableColumnArgs where
  name : String
  type : String
  nullable : Bool
deriving Repr, DecidableEq

/-- Descriptor `snowflake.Table` with the fields set by `create_table`. -/
structure Table where
  resourceName : String
  database : String
  schema : String
  name : String
  columns : List TableColumnArgs
  comment : String
  cluster_bys : Option (List String)
deriving Repr, DecidableEq

/-- An input column mapping for `create_table`: required `name` and `type`
keys, optional `nullable` key (`col.get("nullable", "true")` supplies the
default when the key is absent). -/
structure ColumnInput where
  name : String
  type : String
  nullable : Option String
deriving Repr, DecidableEq

/-- `snowflake.GrantPrivilegesToAccountRoleOnAccountObjectArgs`. -/
structure GrantPrivilegesToAccountRoleOnAccountObjectArgs where
  object_type : String
  object_name : String
deriving Repr, DecidableEq

/-- `snowflake.GrantPrivilegesToAccountRoleOnSchemaArgs`. -/
structure GrantPrivilegesToAccountRoleOnSchemaArgs where
  schema_name : String
deriving Repr, DecidableEq

/-- `snowflake.GrantPrivilegesToAccountRoleOnSchemaObjectAllArgs`. -/
structure GrantPrivilegesToAccountRoleOnSchemaObjectAllArgs where
  object_type_plural : String
  in_schema : String
deriving Repr, DecidableEq

/-- `snowflake.GrantPrivilegesToAccountRoleOnSchemaObjectArgs` (only the
`all` field is set by this repository). -/
structure GrantPrivilegesToAccountRoleOnSchemaObjectArgs where
  all : GrantPrivilegesToAccountRoleOnSchemaObjectAllArgs
deriving Repr, DecidableEq

/-- Descriptor `snowflake.GrantPrivilegesToAccountRole`; the three target
fields are keyword arguments left `None` when not passed. -/
structure GrantPrivilegesToAccountRole where
  resourceName : String
  account_role_name : String
  privileges : List String
  on_account_object : Option GrantPrivilegesToAccountRoleOnAccountObjectArgs
  on_schema : Option GrantPrivilegesToAccountRoleOnSchemaArgs
  on_schema_object : Option GrantPrivilegesToAccountRoleOnSchemaObjectArgs
deriving Repr, DecidableEq

/-- `create_user` (src/main.py lines 18-52). The configured `environment`
string is passed explicitly instead of read from module-level state. -/
def create_user (environment : String) (name : String) (login_name : String)
    (email : String)
    (default_role : optParam (Option String) none)
    (default_warehouse : optParam (Option String) none)
    (default_namespace : optParam (Option String) none)
    (must_change_password : optParam Bool true)
    (disabled : optParam Bool false) : User :=
  { resourceName := name
    name := login_name
    login_name := login_name
    email := email
    default_role := default_role
    default_warehouse := default_warehouse
    default_namespace := default_namespace
    must_change_password := must_change_password
    disabled := disabled
    comment := "Managed by Pulumi - " ++ environment }

/-- `create_role` (src/main.py lines 59-65). -/
def create_role (environment : String) (name : String)
    (comment : optParam (Option String) none) : Role :=
  { resourceName := name
    name := name
    comment := pyOrStr comment ("Managed by Pulumi - " ++ environment) }

/-- `grant_role_to_user` (src/main.py lines 72-82). -/
def grant_role_to_user (name : String) (role_name : String)
    (user_name : String) : RoleGrants :=
  { resourceName := name
    role_name := role_name
    users := [user_name] }

/-- `create_warehouse` (src/main.py lines 89-120). -/
def create_warehouse (environment : String) (name : String)
    (warehouse_size : optParam String "SMALL")
    (auto_suspend : optParam Int 300)
    (auto_resume : optParam Bool true)
    (initially_suspended : optParam Bool true)
    (max_cluster_count : optParam Int 1)
    (min_cluster_count : optParam Int 1) : Warehouse :=
  { resourceName := name
    name := name
    warehouse_size := warehouse_size
    auto_suspend := auto_suspend
    auto_resume := auto_resume
    initially_suspended := initially_suspended
    max_cluster_count := max_cluster_count
    min_cluster_count := min_cluster_count
    comment := "Managed by Pulumi - " ++ environment }

/-- `create_database` (src/main.py lines 127-145). -/
def create_database (environment : String) (name : String)
    (comment : optParam (Option String) none)
    (data_retention_time_in_days : optParam Int 1) : Database :=
  { resourceName := name
    name := name
    comment := pyOrStr comment ("Managed by Pulumi - " ++ environment)
    data_retention_time_in_days := data_retention_time_in_days }

/-- `create_schema` (src/main.py lines 152-178). -/
def create_schema (environment : String) (name : String) (database : String)
    (schema_name : String)
    (comment : optParam (Option String) none)
    (data_retention_days : optParam (Option Int) none)
    (is_managed : optParam Bool false) : Schema :=
  { resourceName := name
    database := database
    name := schema_name
    comment := pyOrStr comment ("Managed by Pulumi - " ++ environment)
    data_retention_days := data_retention_days
    is_managed := is_managed }

/-- `create_table` (src/main.py lines 185-230): builds one
`TableColumnArgs` per input column, coercing the optional `nullable`
string to a boolean by exact equality with `"true"`. -/
def create_table (environment : String) (name : String) (database : String)
    (schema : String) (table_name : String) (columns : List ColumnInput)
    (comment : optParam (Option String) none)
    (cluster_by : optParam (Option (List String)) none) : Table :=
  { resourceName := name
    database := database
    schema := schema
    name := table_name
    columns := columns.map (fun col =>
      { name := col.name
        type := col.type
        nullable := (col.nullable.getD "true") == "true" })
    comment := pyOrStr comment ("Managed by Pulumi - " ++ environment)
    cluster_bys := cluster_by }

/-- `grant_database_usage` (src/main.py lines 237-251). -/
def grant_database_usage (name : String) (database_name : String)
    (role : String) : GrantPrivilegesToAccountRole :=
  { resourceName := name
    account_role_name := role
    privileges := ["USAGE"]
    on_account_object := some
      { object_type := "DATABASE"
        object_name := database_name }
    on_schema := none
    on_schema_object := none }

/-- `grant_schema_usage` (src/main.py lines 254-268);
`pulumi.Output.concat(database_name, ".", schema_name)` is the string
concatenation of the resolved operands. -/
def grant_schema_usage (name : String) (database_name : String)
    (schema_name : String) (role : String) : GrantPrivilegesToAccountRole :=
  { resourceName := name
    account_role_name := role
    privileges := ["USAGE"]
    on_account_object := none
    on_schema := some
      { schema_name := database_name ++ "." ++ schema_name }
    on_schema_object := none }

/-- `grant_table_select` (src/main.py lines 271-290): when `all_tables` is
false the Python function falls through its `if` with no `else` and
implicitly returns `None`, hence the `Option` result. -/
def grant_table_select (name : String) (database_name : String)
    (schema_name : String) (role : String)
    (all_tables : optParam Bool true) :
    Option GrantPrivilegesToAccountRole :=
  if all_tables then
    some
      { resourceName := name
        account_role_name := role
        privileges := ["SELECT"]
        on_account_object := none
        on_schema := none
        on_schema_object := some
          { all :=
            { object_type_plural := "TABLES"
              in_schema := database_name ++ "." ++ schema_name } } }
  else
    none

/-- `grant_warehouse_usage` (src/main.py lines 293-307). -/
def grant_warehouse_usage (name : String) (warehouse_name : String)
    (role : String) : GrantPrivilegesToAccountRole :=
  { resourceName := name
    account_role_name := role
    privileges := ["USAGE"]
    on_account_object := some
      { object_type := "WAREHOUSE"
        object_name := warehouse_name }
    on_schema := none
    on_schema_object := none }

/-- Modelled from the spec: the top-level example program bindings
(`example_wh`, `example_db`, `example_schema`, `example_table`,
`example_user`, `example_role`) that the export statements at
src/main.py lines 313-318 reference. Their declarations are absent from
the source file; spec section 2 says the top-level program declares one
resource of each kind in dependency order and threads the handles into
the exports. -/
structure ExampleProgram where
  example_wh : Warehouse
  example_db : Database
  example_schema : Schema
  example_table : Table
  example_user : User
  example_role : Role

/-- The six `pulumi.export` calls (src/main.py lines 313-318): named
output bindings, each bound to the `name` attribute of the corresponding
resource handle. -/
def programExports (p : ExampleProgram) : List (String × String) :=
  [("warehouse", p.example_wh.name),
   ("database", p.example_db.name),
   ("schema", p.example_schema.name),
   ("table", p.example_table.name),
   ("user", p.example_user.name),
   ("role", p.example_role.name)]

/-- C1: a column descriptor produced by `create_table` is nullable if and
only if the input column's `nullable` field equals the exact string
`"true"`; an absent field defaults to `"true"` (hence nullable) and any
other string yields nullable false. In particular, for the input columns
`ID NUMBER(38,0) nullable "false"` and `NAME VARCHAR(100)` (field absent),
the first descriptor is non-nullable and the second nullable. -/
theorem create_table_nullable_spec :
    (∀ (env n db sch tn : String) (cols : List ColumnInput)
       (c : Option String) (cb : Option (List String)) (i : Nat),
       (((create_table env n db sch tn cols c cb).columns)[i]?).map
           TableColumnArgs.nullable
         = (cols[i]?).map (fun col => (col.nullable.getD "true") == "true"))
  ∧ ((create_table "dev" "employees" "DB" "PUBLIC" "EMPLOYEES"
        [{ name := "ID", type := "NUMBER(38,0)", nullable := some "false" },
         { name := "NAME", type := "VARCHAR(100)", nullable := none }]
        none none).columns.map TableColumnArgs.nullable = [false, true]) := by
  constructor
  · intro env n db sch tn cols c cb i
    simp only [create_table, List.getElem?_map, Option.map_map]
    cases cols[i]? <;> rfl
  · decide

/-- C2 evidence: `grant_table_select` with `all_tables = false` does not
raise an unsupported-operation condition; it silently falls through the
`if` and returns Python's implicit `None` (here `none`), contradicting
the claim that it never silently returns nothing. -/
theorem grant_table_select_all_tables_false_is_none :
    grant_table_select "grant" "DB" "PUBLIC" "ANALYST" false = none := rfl

/-- C3: every grant constructor requests exactly its fixed privilege set
regardless of input: `grant_database_usage`, `grant_schema_usage` and
`grant_warehouse_usage` always request `["USAGE"]`, and
`grant_table_select` with `all_tables = true` always requests
`["SELECT"]`. -/
theorem grant_privileges_fixed (n db sch wh role : String) :
    (grant_database_usage n db role).privileges = ["USAGE"]
  ∧ (grant_schema_usage n db sch role).privileges = ["USAGE"]
  ∧ (grant_warehouse_usage n wh role).privileges = ["USAGE"]
  ∧ (grant_table_select n db sch role true).map
      GrantPrivilegesToAccountRole.privileges = some ["SELECT"] :=
  ⟨rfl, rfl, rfl, rfl⟩

/-- C4: every resource constructor invoked without an explicit comment
(`create_role`, `create_database`, `create_schema`, `create_table` with
`comment = none`, and `create_user` / `create_warehouse` always, since
they take no comment parameter) stamps the comment
`"Managed by Pulumi - {environment}"` with the configured environment
substituted. -/
theorem default_comment_stamp (env n ln em db sch sn tn : String)
    (dr dw dn : Option String) (mcp dis ar is : Bool) (asus mx mn ret : Int)
    (ws : String) (rd : Option Int) (im : Bool) (cols : List ColumnInput)
    (cb : Option (List String)) :
    (create_user env n ln em dr dw dn mcp dis).comment
      = "Managed by Pulumi - " ++ env
  ∧ (create_warehouse env n ws asus ar is mx mn).comment
      = "Managed by Pulumi - " ++ env
  ∧ (create_role env n none).comment = "Managed by Pulumi - " ++ env
  ∧ (create_database env n none ret).comment = "Managed by Pulumi - " ++ env
  ∧ (create_schema env n db sn none rd im).comment
      = "Managed by Pulumi - " ++ env
  ∧ (create_table env n db sch tn cols none cb).comment
      = "Managed by Pulumi - " ++ env :=
  ⟨rfl, rfl, rfl, rfl, rfl, rfl⟩

/-- C5: the program's final export statements publish named output
bindings for warehouse, database, schema, table, user and role, each
bound to the `name` attribute of the correspondingly declared resource. -/
theorem exports_bind_resource_names (p : ExampleProgram) :
    (programExports p).lookup "warehouse" = some p.example_wh.name
  ∧ (programExports p).lookup "database" = some p.example_db.name
  ∧ (programExports p).lookup "schema" = some p.example_schema.name
  ∧ (programExports p).lookup "table" = some p.example_table.name
  ∧ (programExports p).lookup "user" = some p.example_user.name
  ∧ (programExports p).lookup "role" = some p.example_role.name :=
  ⟨rfl, rfl, rfl, rfl, rfl, rfl⟩

/-- C6: the schema target produced by `grant_schema_usage` is the
database name, a literal `"."`, and the schema name concatenated; for
database `"DB"` and schema `"PUBLIC"` the target is `"DB.PUBLIC"`. -/
theorem grant_schema_usage_target (n db sch role : String) :
    ((grant_schema_usage n db sch role).on_schema).map
        GrantPrivilegesToAccountRoleOnSchemaArgs.schema_name
      = some (db ++ "." ++ sch)
  ∧ ((grant_schema_usage "g" "DB" "PUBLIC" role).on_schema).map
        GrantPrivilegesToAccountRoleOnSchemaArgs.schema_name
      = some "DB.PUBLIC" :=
  ⟨rfl, rfl⟩

/-- C7: `create_warehouse` called with only a name and every other
parameter defaulted yields warehouse_size `"SMALL"`, auto_suspend `300`,
auto_resume `true`, initially_suspended `true`, min_cluster_count `1`
and max_cluster_count `1`. -/
theorem create_warehouse_default_spec (env n : String) :
    (create_warehouse env n).warehouse_size = "SMALL"
  ∧ (create_warehouse env n).auto_suspend = 300
  ∧ (create_warehouse env n).auto_resume = true
  ∧ (create_warehouse env n).initially_suspended = true
  ∧ (create_warehouse env n).min_cluster_count = 1
  ∧ (create_warehouse env n).max_cluster_count = 1 :=
  ⟨rfl, rfl, rfl, rfl, rfl, rfl⟩

/-- C8: for every role name and user name, `grant_role_to_user` produces
a RoleGrants declaration associating the given role with a users list
containing exactly the one given user. -/
theorem grant_role_to_user_single_user (n r u : String) :
    (grant_role_to_user n r u).role_name = r
  ∧ (grant_role_to_user n r u).users = [u] :=
  ⟨rfl, rfl⟩

/-- C9: passing the empty string as the comment argument to
`create_role`, `create_database`, `create_schema` or `create_table` is
treated like passing no comment: Python's `or` tests truthiness, the
empty string is falsy, and the environment stamp is applied. -/
theorem empty_comment_treated_as_absent (env n db sch sn tn : String)
    (ret : Int) (rd : Option Int) (im : Bool) (cols : List ColumnInput)
    (cb : Option (List String)) :
    (create_role env n (some "")).comment = "Managed by Pulumi - " ++ env
  ∧ (create_database env n (some "") ret).comment
      = "Managed by Pulumi - " ++ env
  ∧ (create_schema env n db sn (some "") rd im).comment
      = "Managed by Pulumi - " ++ env
  ∧ (create_table env n db sch tn cols (some "") cb).comment
      = "Managed by Pulumi - " ++ env :=
  ⟨rfl, rfl, rfl, rfl⟩

/-- C10: for every invocation of `create_user`, the declared user's
`name` attribute and `login_name` attribute both equal the `login_name`
parameter; the first positional `name` argument becomes only the
declaration identifier (the Pulumi resource name), never the Snowflake
object name. -/
theorem create_user_name_is_login_name (env n ln em : String)
    (dr dw dn : Option String) (mcp dis : Bool) :
    (create_user env n ln em dr dw dn mcp dis).name = ln
  ∧ (create_user env n ln em dr dw dn mcp dis).login_name = ln
  ∧ (create_user env n ln em dr dw dn mcp dis).resourceName = n :=
  ⟨rfl, rfl, rfl⟩

end PulumiSnowflake
